import Mathlib

/-!
Verification of the game-event analytics dashboard (`src/app.py` and
`src/utils/db_connector.py`).

The query-construction logic (condition builder, participation and engagement
query builders), the metrics summarizers, and the query-executor wrapper are
embedded shallowly: Python strings become Lean `String`s, f-string
interpolation becomes `++`, pandas DataFrames become `Option (List row)`
(`none` models a `None` frame), and the numeric column values are modelled
as exact rationals.
-/

/- ## Python string primitives used by the source -/

/-- Model of Python `str.lower()` for the ASCII platform tokens used here:
lower-case every character. -/
def pyLower (s : String) : String := ⟨s.data.map Char.toLower⟩

/-- Model of Python `s.split()[0]`: drop leading whitespace, then take the
first maximal run of non-whitespace characters.  (Python raises on a string
with no token at all; the model totalizes that case to `""`, which no claim
exercises.) -/
def pyFirstToken (s : String) : String :=
  ⟨(s.data.dropWhile Char.isWhitespace).takeWhile (fun c => !c.isWhitespace)⟩

/-- Model of Python `sep.join(parts)`. -/
def pyJoin (sep : String) : List String → String
  | [] => ""
  | [s] => s
  | s :: r :: rest => s ++ sep ++ pyJoin sep (r :: rest)

/- ## Substring counting utilities (for stating the claims) -/

/-- Predicate `startsWithList pat s`: true when `pat` is a prefix of `s`. -/
def startsWithList : List Char → List Char → Bool
  | [], _ => true
  | _ :: _, [] => false
  | c :: p, d :: s => c = d && startsWithList p s

/-- Number of positions of `s` at which `pat` occurs. -/
def countOcc (pat : List Char) : List Char → Nat
  | [] => 0
  | c :: rest => (if startsWithList pat (c :: rest) then 1 else 0) + countOcc pat rest

/-- Number of occurrences of the string `pat` inside `s`. -/
def countSubstr (pat s : String) : Nat := countOcc pat.data s.data

/- ## Data model: time periods -/

/-- A time period as stored in `st.session_state.time_periods`
(src/app.py lines 449-452): a dict with `start_date` and `end_date`
timestamp strings of the shape `"YYYY-MM-DD HH:MM:SS"`. -/
structure TimePeriod where
  start_date : String
  end_date : String
deriving DecidableEq, Repr

/- ## Condition builder, src/app.py lines 109-124 -/

/-- The per-period clause built inside the loop of
`build_time_periods_condition` (src/app.py lines 113-122): the `toDate`
bounds use only the date part (`period[...].split()[0]`), the `toDateTime`
bounds use the full timestamp. -/
def periodClause (period : TimePeriod) : String :=
  let start_date := pyFirstToken period.start_date
  let end_date := pyFirstToken period.end_date
  "\n        (created_day BETWEEN toDate('"
    ++ start_date
    ++ "') AND toDate('"
    ++ end_date
    ++ "')\n        AND created_date >= toDateTime('"
    ++ period.start_date
    ++ "')\n        AND created_date <= toDateTime('"
    ++ period.end_date
    ++ "'))\n        "

/-- Function `build_time_periods_condition` (src/app.py lines 109-124): build one
clause per period and join them with `" OR "`. -/
def build_time_periods_condition (time_periods : List TimePeriod) : String :=
  pyJoin " OR " (time_periods.map periodClause)

/- ## Condition builder, src/utils/db_connector.py lines 78-88 -/

namespace DbConnector

/-- The per-period clause built by `build_time_periods_condition` in
src/utils/db_connector.py (lines 81-87): unlike the app.py version, the
`toDate` bounds receive the full timestamp string. -/
def periodClause (period : TimePeriod) : String :=
  "\n        (created_day BETWEEN toDate('"
    ++ period.start_date
    ++ "') AND toDate('"
    ++ period.end_date
    ++ "')\n        AND created_date >= toDateTime('"
    ++ period.start_date
    ++ "')\n        AND created_date <= toDateTime('"
    ++ period.end_date
    ++ "'))\n        "

/-- Function `build_time_periods_condition` (src/utils/db_connector.py lines 78-88). -/
def build_time_periods_condition (time_periods : List TimePeriod) : String :=
  pyJoin " OR " (time_periods.map DbConnector.periodClause)

end DbConnector

/- ## Query builders, src/app.py lines 126-287 -/

/-- Function `get_event_participation_query` (src/app.py lines 126-254), a character
exact transcription of the f-string with the four interpolation points
(`table_prefix`, `time_periods_condition`, `min_level`, `event_name`)
turned into string concatenation. -/
def get_event_participation_query (event_name : String) (time_periods : List TimePeriod)
    (platform : String) (min_level : Int) : String :=
  let table_prefix := "com_fc_goods_sort_matching_puzzle_triplemaster_" ++ pyLower platform
  let time_periods_condition := build_time_periods_condition time_periods
  "\n    -- Identify all eligible users with the specified minimum level from retention data\n    WITH eligible_users AS (\n        SELECT DISTINCT\n            r.account_id,\n            r.created_day\n        FROM \n            "
    ++ table_prefix
    ++ "." ++ "f_sdk_retention_data r\n        WHERE \n            "
    ++ "("
    ++ time_periods_condition
    ++ ")"
    ++ "\n            AND r.level >= "
    ++ toString min_level
    ++ " -- Use configurable minimum level\n    ),\n\n    -- Identify event participants\n    event_participants AS (\n        SELECT DISTINCT\n            e.account_id,\n            e.created_day\n        FROM \n            "
    ++ table_prefix
    ++ "." ++ "f_sdk_event_data e\n        WHERE \n            "
    ++ "("
    ++ time_periods_condition
    ++ ")"
    ++ "\n            AND e.event_name = '"
    ++ event_name
    ++ "'\n            AND e.level >= "
    ++ toString min_level
    ++ " -- Use configurable minimum level\n    ),\n\n    -- Classify users as participants or non-participants\n    user_participation AS (\n        SELECT\n            eu.account_id,\n            eu.created_day,\n            CASE \n                WHEN ep.account_id IS NOT NULL THEN 'Event Participant'\n                ELSE 'Non-Participant'\n            END AS participation_group\n        FROM \n            eligible_users eu\n        LEFT JOIN \n            event_participants ep\n            ON eu.account_id = ep.account_id\n            AND eu.created_day = ep.created_day\n    ),\n\n    -- Get total active users per day BY GROUP as denominator for participation rate\n    daily_active_users_by_group AS (\n        SELECT\n            created_day,\n            participation_group,\n            COUNT(DISTINCT account_id) AS group_total_users\n        FROM \n            user_participation\n        GROUP BY\n            created_day,\n            participation_group\n    ),\n\n    -- Calculate IAP metrics combining with in_app data\n    iap_metrics AS (\n        SELECT\n            i.created_day,\n            up.participation_group,\n            \n            -- Basic metrics\n            COUNT(DISTINCT i.account_id) AS paying_users,\n            COUNT(DISTINCT i.uuid) AS purchase_count,\n            SUM(i.price_usd) AS total_revenue,\n            \n            -- Percentiles for revenue\n            quantile(0.25)(i.price_usd) AS revenue_25th_percentile,\n            quantile(0.50)(i.price_usd) AS revenue_median,\n            quantile(0.75)(i.price_usd) AS revenue_75th_percentile,\n            quantile(0.90)(i.price_usd) AS revenue_90th_percentile,\n            \n            -- First purchase conversion metrics\n            SUM(IF(i.in_app_count = 1, 1, 0)) AS first_time_payers\n        FROM \n            "
    ++ table_prefix
    ++ ".f_sdk_in_app_data i\n        JOIN\n            user_participation up \n            ON i.account_id = up.account_id \n            AND i.created_day = up.created_day\n        WHERE\n            "
    ++ "("
    ++ time_periods_condition
    ++ ")"
    ++ "\n            AND i.level >= "
    ++ toString min_level
    ++ " -- Use configurable minimum level\n        GROUP BY\n            i.created_day,\n            up.participation_group\n    )\n\n    -- Final result with ARPU and ARPPU calculations\n    SELECT\n        im.created_day,\n        im.participation_group,\n        da.group_total_users,\n        im.paying_users,\n        im.purchase_count,\n        im.total_revenue,\n        im.revenue_25th_percentile,\n        im.revenue_median,\n        im.revenue_75th_percentile,\n        im.revenue_90th_percentile,\n        im.first_time_payers,\n        -- Conversion rate: first time payers divided by THAT GROUP'S total users\n        "
    ++ "im.first_time_payers / nullIf(da.group_total_users, 0) AS conversion_rate"
    ++ ",\n        -- Pay rate: paying users divided by THAT GROUP'S total users\n        im.paying_users / nullIf(da.group_total_users, 0) AS pay_rate,\n        -- ARPU: Total Revenue / Total Users in the group\n        im.total_revenue / nullIf(da.group_total_users, 0) AS ARPU,\n        -- ARPPU: Total Revenue / Paying Users\n        "
    ++ "im.total_revenue / nullIf(im.paying_users, 0) AS ARPPU"
    ++ "\n    FROM\n        iap_metrics im\n    JOIN\n        daily_active_users_by_group da\n        ON im.created_day = da.created_day\n        AND im.participation_group = da.participation_group\n    ORDER BY\n        im.created_day,\n        im.participation_group\n    "

/-- Function `get_event_engagement_query` (src/app.py lines 256-287). -/
def get_event_engagement_query (event_name : String) (time_periods : List TimePeriod)
    (platform : String) (min_level : Int) : String :=
  let table_prefix := "com_fc_goods_sort_matching_puzzle_triplemaster_" ++ pyLower platform
  let time_periods_condition := build_time_periods_condition time_periods
  "\n    WITH event_engagement AS (\n        SELECT\n            created_day,\n            COUNT(DISTINCT account_id) AS unique_users,\n            COUNT(*) AS total_interactions,\n            COUNT(*) / COUNT(DISTINCT account_id) AS avg_interactions_per_user,\n            COUNT(DISTINCT session_id) AS unique_sessions,\n            COUNT(*) / COUNT(DISTINCT session_id) AS avg_interactions_per_session\n        FROM\n            "
    ++ table_prefix
    ++ ".f_sdk_event_data\n        WHERE\n            "
    ++ "("
    ++ time_periods_condition
    ++ ")"
    ++ "\n            AND event_name = '"
    ++ event_name
    ++ "'\n            AND level >= "
    ++ toString min_level
    ++ " -- Use configurable minimum level\n        GROUP BY\n            created_day\n        ORDER BY\n            created_day\n    )\n    \n    SELECT * FROM event_engagement\n    "

/- ## Further substring utilities -/

/-- Predicate `hasSubstr pat s`: true when `pat` occurs somewhere in `s`. -/
def hasSubstr (pat : List Char) : List Char → Bool
  | [] => startsWithList pat []
  | c :: rest => startsWithList pat (c :: rest) || hasSubstr pat rest

/-- Whether the string `pat` occurs inside the string `s`. -/
def containsStr (pat s : String) : Bool := hasSubstr pat.data s.data

/- ## Result tables (pandas DataFrames after the column renaming of
src/app.py lines 500-512), restricted to the columns the summarizers read.
`none` models a `None` frame, `some []` an empty frame. -/

/-- A row of the participation result table; column values are modelled as
exact rationals. -/
structure ParticipationRow where
  created_day : String
  participation_group : String
  group_total_users : ℚ
  total_revenue : ℚ
deriving DecidableEq, Repr

/-- A row of the engagement result table. -/
structure EngagementRow where
  created_day : String
  unique_users : ℚ
  total_interactions : ℚ
  avg_interactions_per_user : ℚ
  unique_sessions : ℚ
  avg_interactions_per_session : ℚ
deriving DecidableEq, Repr

/- ## Metrics summarizer, src/app.py lines 289-316 and 518-521 -/

/-- Function `calculate_overall_participation_rate` (src/app.py lines 289-304). -/
def calculate_overall_participation_rate (df : Option (List ParticipationRow)) : ℚ :=
  match df with
  | none => 0
  | some rows =>
    if rows.isEmpty then 0
    else
      let participants :=
        ((rows.filter (fun r => r.participation_group == "Event Participant")).map
          (fun r => r.group_total_users)).sum
      let total_users := (rows.map (fun r => r.group_total_users)).sum
      if total_users > 0 then participants / total_users else 0

/-- Function `calculate_overall_revenue` (src/app.py lines 306-316). -/
def calculate_overall_revenue (df : Option (List ParticipationRow)) : ℚ :=
  match df with
  | none => 0
  | some rows =>
    if rows.isEmpty then 0
    else
      ((rows.filter (fun r => r.participation_group == "Event Participant")).map
        (fun r => r.total_revenue)).sum

/-- The total-engagement summary computed inline at src/app.py lines 518-521:
start from `0` and overwrite with the column sum when the frame is neither
`None` nor empty. -/
def total_engagement (engagement_df : Option (List EngagementRow)) : ℚ :=
  match engagement_df with
  | none => 0
  | some rows =>
    if rows.isEmpty then 0
    else (rows.map (fun r => r.total_interactions)).sum

/- ## Spec-side summarizer definitions (for the refinement comparisons;
these follow the wording of spec.md section 4.5, not the code) -/

/-- Spec wording: sum of `total_users` where group = Event Participant,
divided by the sum of `total_users` across all rows; 0 if the table is
`None`-equivalent, empty, or the denominator is 0. -/
def spec_overall_participation_rate (df : Option (List ParticipationRow)) : ℚ :=
  match df with
  | none => 0
  | some rows =>
    let participants :=
      ((rows.filter (fun r => r.participation_group == "Event Participant")).map
        (fun r => r.group_total_users)).sum
    let total_users := (rows.map (fun r => r.group_total_users)).sum
    if total_users = 0 then 0 else participants / total_users

/-- Spec wording: sum of `total_revenue` where group = Event Participant;
0 if the table is `None`-equivalent or empty. -/
def spec_overall_revenue (df : Option (List ParticipationRow)) : ℚ :=
  match df with
  | none => 0
  | some rows =>
    ((rows.filter (fun r => r.participation_group == "Event Participant")).map
      (fun r => r.total_revenue)).sum

/-- Spec wording: sum of `total_interactions` across all engagement rows;
0 if empty or absent. -/
def spec_total_engagement (engagement_df : Option (List EngagementRow)) : ℚ :=
  match engagement_df with
  | none => 0
  | some rows => (rows.map (fun r => r.total_interactions)).sum

/- ## Query executor, src/app.py lines 62-82 -/

/-- Observable outcome of `execute_query`: either a returned DataFrame
(column names and rows), or the error path (`st.error(message)` displayed
and `None` returned). -/
inductive ExecOutcome (α : Type) where
  | frame (columns : List String) (rows : List (List α))
  | failure (message : String)
deriving DecidableEq, Repr

/-- Function `execute_query` (src/app.py lines 62-82).  The engine round-trip
`_client.execute(query)` is abstracted as a function from query text to
either a row list or an error message; `if not result: return pd.DataFrame()`
maps an empty result to an empty frame, otherwise positional column names
`column_i` are generated from the first row's width; any raised error `e`
is caught and surfaced as `st.error(f"Query execution failed for
{platform}: {e}")` followed by `return None`. -/
def execute_query {α : Type} (client : String → Except String (List (List α)))
    (query platform : String) : ExecOutcome α :=
  match client query with
  | .error e => .failure ("Query execution failed for " ++ platform ++ ": " ++ e)
  | .ok [] => .frame [] []
  | .ok (r0 :: rest) =>
    .frame ((List.range r0.length).map (fun i => "column_" ++ toString i)) (r0 :: rest)

/- ## ClickHouse semantics of the derived-ratio expressions emitted at
src/app.py lines 235-242 -/

/-- ClickHouse `nullIf(x, y)`: NULL when `x = y`, else `x`. -/
def nullIf (x y : ℚ) : Option ℚ := if x = y then none else some x

/-- ClickHouse division applied to a possibly-NULL denominator: NULL
propagates, otherwise the exact quotient. -/
def chDiv (x : ℚ) (d : Option ℚ) : Option ℚ := d.map (fun y => x / y)

/-- Value of `im.first_time_payers / nullIf(da.group_total_users, 0) AS
conversion_rate` (src/app.py line 236). -/
def conversion_rate (first_time_payers group_total_users : ℚ) : Option ℚ :=
  chDiv first_time_payers (nullIf group_total_users 0)

/-- Value of `im.paying_users / nullIf(da.group_total_users, 0) AS pay_rate`
(src/app.py line 238). -/
def pay_rate (paying_users group_total_users : ℚ) : Option ℚ :=
  chDiv paying_users (nullIf group_total_users 0)

/-- Value of `im.total_revenue / nullIf(da.group_total_users, 0) AS ARPU`
(src/app.py line 240). -/
def ARPU (total_revenue group_total_users : ℚ) : Option ℚ :=
  chDiv total_revenue (nullIf group_total_users 0)

/-- Value of `im.total_revenue / nullIf(im.paying_users, 0) AS ARPPU`
(src/app.py line 242). -/
def ARPPU (total_revenue paying_users : ℚ) : Option ℚ :=
  chDiv total_revenue (nullIf paying_users 0)

/- ## Helper lemmas on strings and character lists -/

/-- Concatenating strings concatenates their character data. -/
theorem strData_append (a b : String) : (a ++ b).data = a.data ++ b.data := rfl

/-- The empty string has empty character data. -/
theorem strData_empty : ("" : String).data = [] := rfl

/-- Function `pyJoin` at the level of character data. -/
def joinCharLists (sep : List Char) : List (List Char) → List Char
  | [] => []
  | [c] => c
  | c :: d :: rest => c ++ sep ++ joinCharLists sep (d :: rest)

theorem pyJoin_data (sep : String) (l : List String) :
    (pyJoin sep l).data = joinCharLists sep.data (l.map String.data) := by
  induction l with
  | nil => rfl
  | cons s rest ih =>
    cases rest with
    | nil => rfl
    | cons r rest' =>
      show (s ++ sep ++ pyJoin sep (r :: rest')).data = _
      rw [strData_append, strData_append, ih]
      rfl

/-- The separator `" OR "` as a character list. -/
def sepOR : List Char := [' ', 'O', 'R', ' ']

theorem sepOR_eq_data : (" OR " : String).data = sepOR := by decide

/-- Appending an `O`-free list on the left of a list that does not start
with `O` creates no new `" OR "` occurrence. -/
theorem countOcc_sepOR_append (a t : List Char) (ha : 'O' ∉ a)
    (ht : t.head? ≠ some 'O') :
    countOcc sepOR (a ++ t) = countOcc sepOR t := by
  induction a with
  | nil => rfl
  | cons x a' ih =>
    have ha' : 'O' ∉ a' := fun h => ha (List.mem_cons_of_mem _ h)
    have hfalse : startsWithList sepOR (x :: (a' ++ t)) = false := by
      cases a' with
      | nil =>
        cases t with
        | nil => simp [sepOR, startsWithList]
        | cons u t' =>
          have hu : u ≠ 'O' := by
            intro h
            exact ht (by simp [h])
          simp [sepOR, startsWithList, Ne.symm hu]
      | cons y a'' =>
        have hy : y ≠ 'O' := fun h => ha (by simp [h])
        simp [sepOR, startsWithList, Ne.symm hy]
    show (if startsWithList sepOR (x :: (a' ++ t)) then 1 else 0) + countOcc sepOR (a' ++ t)
        = countOcc sepOR t
    rw [hfalse, ih ha']
    simp

/-- A `" OR "` block followed by text that does not start with `O`
contributes exactly one occurrence. -/
theorem countOcc_sepOR_sep (r : List Char) (hr : r.head? ≠ some 'O') :
    countOcc sepOR (sepOR ++ r) = 1 + countOcc sepOR r := by
  have h0 : startsWithList sepOR (' ' :: 'O' :: 'R' :: ' ' :: r) = true := by
    simp [sepOR, startsWithList]
  have h3 : startsWithList sepOR (' ' :: r) = false := by
    cases r with
    | nil => simp [sepOR, startsWithList]
    | cons u t' =>
      have hu : u ≠ 'O' := by
        intro h
        exact hr (by simp [h])
      simp [sepOR, startsWithList, Ne.symm hu]
  show countOcc sepOR (' ' :: 'O' :: 'R' :: ' ' :: r) = 1 + countOcc sepOR r
  have e1 : countOcc sepOR (' ' :: 'O' :: 'R' :: ' ' :: r)
      = (if startsWithList sepOR (' ' :: 'O' :: 'R' :: ' ' :: r) then 1 else 0)
        + countOcc sepOR ('O' :: 'R' :: ' ' :: r) := rfl
  have e2 : countOcc sepOR ('O' :: 'R' :: ' ' :: r)
      = (if startsWithList sepOR ('O' :: 'R' :: ' ' :: r) then 1 else 0)
        + countOcc sepOR ('R' :: ' ' :: r) := rfl
  have e3 : countOcc sepOR ('R' :: ' ' :: r)
      = (if startsWithList sepOR ('R' :: ' ' :: r) then 1 else 0)
        + countOcc sepOR (' ' :: r) := rfl
  have e4 : countOcc sepOR (' ' :: r)
      = (if startsWithList sepOR (' ' :: r) then 1 else 0) + countOcc sepOR r := rfl
  rw [e1, e2, e3, e4, h0, h3]
  simp [sepOR, startsWithList]

/-- Joining nonempty `O`-free clauses that each start with a newline with
the `" OR "` separator yields exactly one occurrence per separator. -/
theorem countOcc_sepOR_join (c : List Char) (cs : List (List Char))
    (hall : ∀ x ∈ c :: cs, 'O' ∉ x ∧ x.head? = some '\n') :
    countOcc sepOR (joinCharLists sepOR (c :: cs)) = cs.length := by
  induction cs generalizing c with
  | nil =>
    have hc := hall c (by simp)
    have := countOcc_sepOR_append c [] hc.1 (by simp)
    simpa [joinCharLists] using this
  | cons d cs' ih =>
    have hc := hall c (by simp)
    have hd := hall d (by simp)
    have hjoin_head : (joinCharLists sepOR (d :: cs')).head? = some '\n' := by
      cases cs' with
      | nil => simpa [joinCharLists] using hd.2
      | cons e cs'' =>
        cases d with
        | nil => simp at hd
        | cons d0 dr =>
          have : d0 = '\n' := by simpa using hd.2
          simp [joinCharLists, this]
    have step1 : joinCharLists sepOR (c :: d :: cs')
        = c ++ (sepOR ++ joinCharLists sepOR (d :: cs')) := by
      simp [joinCharLists, List.append_assoc]
    rw [step1,
      countOcc_sepOR_append c _ hc.1 (by simp [sepOR]),
      countOcc_sepOR_sep _ (by rw [hjoin_head]; simp),
      ih d (fun x hx => hall x (by simp at hx; rcases hx with h | h <;> simp [h]))]
    simp [Nat.add_comm]

/- ## Timestamp character sets and clause shape -/

/-- The characters a well-formed `YYYY-MM-DD HH:MM:SS` (or bare date)
field may contain: digits, `-`, `:` and the blank. -/
def okTimestamp (s : String) : Prop :=
  ∀ c ∈ s.data, c.isDigit ∨ c = '-' ∨ c = ':' ∨ c = ' '

instance (s : String) : Decidable (okTimestamp s) := by
  unfold okTimestamp
  infer_instance

theorem not_O_of_okTimestamp {s : String} (h : okTimestamp s) : 'O' ∉ s.data := by
  intro hmem
  rcases h 'O' hmem with hd | hd | hd | hd <;> simp_all

theorem mem_of_mem_takeWhileChar {c : Char} {p : Char → Bool} {l : List Char}
    (h : c ∈ l.takeWhile p) : c ∈ l := by
  induction l with
  | nil => simp at h
  | cons d l ih =>
    rw [List.takeWhile_cons] at h
    by_cases hp : p d
    · rw [if_pos hp] at h
      rcases List.mem_cons.mp h with h | h
      · simp [h]
      · exact List.mem_cons_of_mem _ (ih h)
    · rw [if_neg hp] at h
      simp at h

theorem mem_of_mem_dropWhileChar {c : Char} {p : Char → Bool} {l : List Char}
    (h : c ∈ l.dropWhile p) : c ∈ l := by
  induction l with
  | nil => simp at h
  | cons d l ih =>
    rw [List.dropWhile_cons] at h
    by_cases hp : p d
    · rw [if_pos hp] at h
      exact List.mem_cons_of_mem _ (ih h)
    · rw [if_neg hp] at h
      exact h

theorem mem_pyFirstToken {c : Char} {s : String}
    (h : c ∈ (pyFirstToken s).data) : c ∈ s.data := by
  have h0 : (pyFirstToken s).data
      = (s.data.dropWhile Char.isWhitespace).takeWhile (fun c => !c.isWhitespace) := rfl
  rw [h0] at h
  exact mem_of_mem_dropWhileChar (mem_of_mem_takeWhileChar h)

theorem not_O_pyFirstToken {s : String} (h : okTimestamp s) :
    'O' ∉ (pyFirstToken s).data := fun hc => not_O_of_okTimestamp h (mem_pyFirstToken hc)

/-- The app.py clause contains no capital `O` when the period fields are
well-formed timestamps. -/
theorem periodClause_O_free {p : TimePeriod}
    (hs : okTimestamp p.start_date) (he : okTimestamp p.end_date) :
    'O' ∉ (periodClause p).data := by
  intro hmem
  have hexp : (periodClause p).data
      = ("\n        (created_day BETWEEN toDate('" : String).data
        ++ (pyFirstToken p.start_date).data
        ++ ("') AND toDate('" : String).data
        ++ (pyFirstToken p.end_date).data
        ++ ("')\n        AND created_date >= toDateTime('" : String).data
        ++ p.start_date.data
        ++ ("')\n        AND created_date <= toDateTime('" : String).data
        ++ p.end_date.data
        ++ ("'))\n        " : String).data := by
    simp [periodClause, strData_append]
  rw [hexp] at hmem
  simp only [List.mem_append] at hmem
  rcases hmem with ((((((((h | h) | h) | h) | h) | h) | h) | h) | h)
  · revert h; decide
  · exact not_O_pyFirstToken hs h
  · revert h; decide
  · exact not_O_pyFirstToken he h
  · revert h; decide
  · exact not_O_of_okTimestamp hs h
  · revert h; decide
  · exact not_O_of_okTimestamp he h
  · revert h; decide

/-- The db_connector clause contains no capital `O` when the period fields
are well-formed timestamps. -/
theorem db_periodClause_O_free {p : TimePeriod}
    (hs : okTimestamp p.start_date) (he : okTimestamp p.end_date) :
    'O' ∉ (DbConnector.periodClause p).data := by
  intro hmem
  have hexp : (DbConnector.periodClause p).data
      = ("\n        (created_day BETWEEN toDate('" : String).data
        ++ p.start_date.data
        ++ ("') AND toDate('" : String).data
        ++ p.end_date.data
        ++ ("')\n        AND created_date >= toDateTime('" : String).data
        ++ p.start_date.data
        ++ ("')\n        AND created_date <= toDateTime('" : String).data
        ++ p.end_date.data
        ++ ("'))\n        " : String).data := by
    simp [DbConnector.periodClause, strData_append]
  rw [hexp] at hmem
  simp only [List.mem_append] at hmem
  rcases hmem with ((((((((h | h) | h) | h) | h) | h) | h) | h) | h)
  · revert h; decide
  · exact not_O_of_okTimestamp hs h
  · revert h; decide
  · exact not_O_of_okTimestamp he h
  · revert h; decide
  · exact not_O_of_okTimestamp hs h
  · revert h; decide
  · exact not_O_of_okTimestamp he h
  · revert h; decide

theorem periodClause_head (p : TimePeriod) :
    (periodClause p).data.head? = some '\n' := by
  have hexp : (periodClause p).data
      = ("\n        (created_day BETWEEN toDate('" : String).data
        ++ ((pyFirstToken p.start_date).data
        ++ (("') AND toDate('" : String).data
        ++ ((pyFirstToken p.end_date).data
        ++ (("')\n        AND created_date >= toDateTime('" : String).data
        ++ (p.start_date.data
        ++ (("')\n        AND created_date <= toDateTime('" : String).data
        ++ (p.end_date.data
        ++ ("'))\n        " : String).data))))))) := by
    simp [periodClause, strData_append]
  rw [hexp]
  rfl

theorem db_periodClause_head (p : TimePeriod) :
    (DbConnector.periodClause p).data.head? = some '\n' := by
  have hexp : (DbConnector.periodClause p).data
      = ("\n        (created_day BETWEEN toDate('" : String).data
        ++ (p.start_date.data
        ++ (("') AND toDate('" : String).data
        ++ (p.end_date.data
        ++ (("')\n        AND created_date >= toDateTime('" : String).data
        ++ (p.start_date.data
        ++ (("')\n        AND created_date <= toDateTime('" : String).data
        ++ (p.end_date.data
        ++ ("'))\n        " : String).data))))))) := by
    simp [DbConnector.periodClause, strData_append]
  rw [hexp]
  rfl

/-- Each app.py clause is a parenthesized group: it opens with
`"\n        ("` and closes with `")\n        "`. -/
theorem periodClause_paren (p : TimePeriod) :
    (∃ r, periodClause p = "\n        (" ++ r) ∧
    (∃ l, periodClause p = l ++ ")\n        ") := by
  constructor
  · refine ⟨"created_day BETWEEN toDate('" ++ pyFirstToken p.start_date
      ++ "') AND toDate('" ++ pyFirstToken p.end_date
      ++ "')\n        AND created_date >= toDateTime('" ++ p.start_date
      ++ "')\n        AND created_date <= toDateTime('" ++ p.end_date
      ++ "'))\n        ", ?_⟩
    apply String.ext
    simp [periodClause, strData_append]
  · refine ⟨"\n        (created_day BETWEEN toDate('" ++ pyFirstToken p.start_date
      ++ "') AND toDate('" ++ pyFirstToken p.end_date
      ++ "')\n        AND created_date >= toDateTime('" ++ p.start_date
      ++ "')\n        AND created_date <= toDateTime('" ++ p.end_date
      ++ "')", ?_⟩
    apply String.ext
    simp [periodClause, strData_append]

/-- Each db_connector clause is a parenthesized group as well. -/
theorem db_periodClause_paren (p : TimePeriod) :
    (∃ r, DbConnector.periodClause p = "\n        (" ++ r) ∧
    (∃ l, DbConnector.periodClause p = l ++ ")\n        ") := by
  constructor
  · refine ⟨"created_day BETWEEN toDate('" ++ p.start_date
      ++ "') AND toDate('" ++ p.end_date
      ++ "')\n        AND created_date >= toDateTime('" ++ p.start_date
      ++ "')\n        AND created_date <= toDateTime('" ++ p.end_date
      ++ "'))\n        ", ?_⟩
    apply String.ext
    simp [DbConnector.periodClause, strData_append]
  · refine ⟨"\n        (created_day BETWEEN toDate('" ++ p.start_date
      ++ "') AND toDate('" ++ p.end_date
      ++ "')\n        AND created_date >= toDateTime('" ++ p.start_date
      ++ "')\n        AND created_date <= toDateTime('" ++ p.end_date
      ++ "')", ?_⟩
    apply String.ext
    simp [DbConnector.periodClause, strData_append]

/-- The per-clause side conditions of the counting lemma hold for all
app.py clauses of well-formed periods. -/
theorem hallApp (tps : List TimePeriod)
    (h2 : ∀ p ∈ tps, okTimestamp p.start_date ∧ okTimestamp p.end_date) :
    ∀ x ∈ (tps.map periodClause).map String.data,
      'O' ∉ x ∧ x.head? = some '\n' := by
  intro x hx
  simp only [List.map_map, List.mem_map, Function.comp] at hx
  obtain ⟨q, hq, rfl⟩ := hx
  exact ⟨periodClause_O_free (h2 q hq).1 (h2 q hq).2, periodClause_head q⟩

/-- The per-clause side conditions of the counting lemma hold for all
db_connector clauses of well-formed periods. -/
theorem hallDb (tps : List TimePeriod)
    (h2 : ∀ p ∈ tps, okTimestamp p.start_date ∧ okTimestamp p.end_date) :
    ∀ x ∈ (tps.map DbConnector.periodClause).map String.data,
      'O' ∉ x ∧ x.head? = some '\n' := by
  intro x hx
  simp only [List.map_map, List.mem_map, Function.comp] at hx
  obtain ⟨q, hq, rfl⟩ := hx
  exact ⟨db_periodClause_O_free (h2 q hq).1 (h2 q hq).2, db_periodClause_head q⟩

/-- Claim C2: for every non-empty list of `n` well-formed TimePeriods, each
of the two condition builders returns the `n` parenthesized per-period
clauses joined by exactly `n - 1` `" OR "` separators; in particular a
single period yields no `OR` at all (no dangling operator). -/
theorem claim_C2 (tps : List TimePeriod) (h1 : tps ≠ [])
    (h2 : ∀ p ∈ tps, okTimestamp p.start_date ∧ okTimestamp p.end_date) :
    build_time_periods_condition tps = pyJoin " OR " (tps.map periodClause) ∧
    countSubstr " OR " (build_time_periods_condition tps) = tps.length - 1 ∧
    DbConnector.build_time_periods_condition tps
      = pyJoin " OR " (tps.map DbConnector.periodClause) ∧
    countSubstr " OR " (DbConnector.build_time_periods_condition tps) = tps.length - 1 ∧
    ∀ p ∈ tps,
      (∃ r, periodClause p = "\n        (" ++ r) ∧
      (∃ l, periodClause p = l ++ ")\n        ") ∧
      (∃ r, DbConnector.periodClause p = "\n        (" ++ r) ∧
      (∃ l, DbConnector.periodClause p = l ++ ")\n        ") := by
  refine ⟨rfl, ?_, rfl, ?_, ?_⟩
  · cases tps with
    | nil => exact absurd rfl h1
    | cons p tps' =>
      have hrw : countSubstr " OR " (build_time_periods_condition (p :: tps'))
          = countOcc sepOR
              (joinCharLists sepOR (((p :: tps').map periodClause).map String.data)) := by
        unfold countSubstr build_time_periods_condition
        rw [pyJoin_data, sepOR_eq_data]
      rw [hrw]
      have hmap : ((p :: tps').map periodClause).map String.data
          = (periodClause p).data :: ((tps'.map periodClause).map String.data) := by
        simp
      rw [hmap, countOcc_sepOR_join _ _ ?_]
      · simp
      · rw [← hmap]
        exact hallApp _ h2
  · cases tps with
    | nil => exact absurd rfl h1
    | cons p tps' =>
      have hrw : countSubstr " OR " (DbConnector.build_time_periods_condition (p :: tps'))
          = countOcc sepOR
              (joinCharLists sepOR
                (((p :: tps').map DbConnector.periodClause).map String.data)) := by
        unfold countSubstr DbConnector.build_time_periods_condition
        rw [pyJoin_data, sepOR_eq_data]
      rw [hrw]
      have hmap : ((p :: tps').map DbConnector.periodClause).map String.data
          = (DbConnector.periodClause p).data
            :: ((tps'.map DbConnector.periodClause).map String.data) := by
        simp
      rw [hmap, countOcc_sepOR_join _ _ ?_]
      · simp
      · rw [← hmap]
        exact hallDb _ h2
  · intro p hp
    exact ⟨(periodClause_paren p).1, (periodClause_paren p).2,
      (db_periodClause_paren p).1, (db_periodClause_paren p).2⟩

/-- A concrete pair of time periods used by the witnesses. -/
def tpsPair : List TimePeriod :=
  [⟨"2024-01-01 00:00:00", "2024-01-07 23:59:59"⟩,
   ⟨"2024-02-01 10:00:00", "2024-02-03 23:59:59"⟩]

/-- Witness for claim C2 at a concrete two-period list: one `" OR "`
separator joins the two parenthesized groups. -/
theorem claim_C2_witness :
    tpsPair ≠ [] ∧
    (∀ p ∈ tpsPair, okTimestamp p.start_date ∧ okTimestamp p.end_date) ∧
    (build_time_periods_condition tpsPair = pyJoin " OR " (tpsPair.map periodClause) ∧
     countSubstr " OR " (build_time_periods_condition tpsPair) = tpsPair.length - 1 ∧
     DbConnector.build_time_periods_condition tpsPair
       = pyJoin " OR " (tpsPair.map DbConnector.periodClause) ∧
     countSubstr " OR " (DbConnector.build_time_periods_condition tpsPair)
       = tpsPair.length - 1 ∧
     ∀ p ∈ tpsPair,
       (∃ r, periodClause p = "\n        (" ++ r) ∧
       (∃ l, periodClause p = l ++ ")\n        ") ∧
       (∃ r, DbConnector.periodClause p = "\n        (" ++ r) ∧
       (∃ l, DbConnector.periodClause p = l ++ ")\n        ")) :=
  ⟨by decide, by decide, claim_C2 tpsPair (by decide) (by decide)⟩

/- ## Relating the two condition builders (claim C9) -/

theorem takeWhileChar_eq_self {p : Char → Bool} {l : List Char}
    (h : ∀ c ∈ l, p c = true) : l.takeWhile p = l := by
  induction l with
  | nil => rfl
  | cons c rest ih =>
    rw [List.takeWhile_cons, if_pos (h c (by simp))]
    rw [ih (fun d hd => h d (by simp [hd]))]

theorem pyFirstToken_eq_self {s : String}
    (h : ∀ c ∈ s.data, ¬ c.isWhitespace) : pyFirstToken s = s := by
  apply String.ext
  show (s.data.dropWhile Char.isWhitespace).takeWhile (fun c => !c.isWhitespace) = s.data
  have hdrop : s.data.dropWhile Char.isWhitespace = s.data := by
    cases hl : s.data with
    | nil => rfl
    | cons c rest =>
      rw [List.dropWhile_cons, if_neg]
      have := h c (by rw [hl]; simp)
      simpa using this
  rw [hdrop]
  apply takeWhileChar_eq_self
  intro c hc
  simp [h c hc]

/-- On whitespace-free period fields the two clause builders agree: the
`split()[0]` in app.py is then the identity. -/
theorem periodClause_eq_db {p : TimePeriod}
    (hs : ∀ c ∈ p.start_date.data, ¬ c.isWhitespace)
    (he : ∀ c ∈ p.end_date.data, ¬ c.isWhitespace) :
    periodClause p = DbConnector.periodClause p := by
  simp only [periodClause, DbConnector.periodClause]
  rw [pyFirstToken_eq_self hs, pyFirstToken_eq_self he]

/-- Claim C9 counterexample: on a single full `date time` TimePeriod, the
two implementations of the condition builder return different strings
(app.py truncates the `toDate` bounds to the date part, db_connector.py
passes the full timestamp). -/
theorem claim_C9_counterexample :
    build_time_periods_condition [⟨"2024-01-01 00:00:00", "2024-01-07 23:59:59"⟩]
      ≠ DbConnector.build_time_periods_condition
          [⟨"2024-01-01 00:00:00", "2024-01-07 23:59:59"⟩] := by
  decide

/-- Claim C9 amended: the two condition builders agree exactly on period
lists whose fields contain no whitespace (bare dates); with a full
`date time` timestamp they differ in the `toDate` arguments. -/
theorem claim_C9_amended (tps : List TimePeriod)
    (h : ∀ p ∈ tps, (∀ c ∈ p.start_date.data, ¬ c.isWhitespace)
          ∧ (∀ c ∈ p.end_date.data, ¬ c.isWhitespace)) :
    build_time_periods_condition tps = DbConnector.build_time_periods_condition tps := by
  unfold build_time_periods_condition DbConnector.build_time_periods_condition
  congr 1
  apply List.map_congr_left
  intro p hp
  exact periodClause_eq_db (h p hp).1 (h p hp).2

/-- A concrete bare-date period list used by the C9 witness. -/
def tpsBare : List TimePeriod := [⟨"2024-01-01", "2024-01-07"⟩]

/-- Witness for the amended claim C9 at a bare-date period. -/
theorem claim_C9_witness :
    (∀ p ∈ tpsBare, (∀ c ∈ p.start_date.data, ¬ c.isWhitespace)
      ∧ (∀ c ∈ p.end_date.data, ¬ c.isWhitespace)) ∧
    build_time_periods_condition tpsBare
      = DbConnector.build_time_periods_condition tpsBare :=
  ⟨by decide, claim_C9_amended tpsBare (by decide)⟩

/- ## Claim C1: derived ratios at a zero denominator -/

/-- Claim C1 counterexample: at denominator `0`, each derived ratio
expression evaluates under ClickHouse semantics to NULL
(`x / nullIf(0, 0) = x / NULL = NULL`), not to `0` as the claim states. -/
theorem claim_C1_counterexample :
    conversion_rate 1 0 = none ∧ conversion_rate 1 0 ≠ some 0 ∧
    pay_rate 1 0 ≠ some 0 ∧
    ARPU 100 0 ≠ some 0 ∧
    ARPPU 100 0 ≠ some 0 := by
  refine ⟨rfl, ?_, ?_, ?_, ?_⟩ <;> simp [conversion_rate, pay_rate, ARPU, ARPPU, chDiv, nullIf]

/-- String concatenation is associative. -/
theorem strAppend_assoc (a b c : String) : a ++ b ++ c = a ++ (b ++ c) := by
  apply String.ext
  simp [strData_append]

/-- Claim C1 amended: each derived ratio is NULL (not `0`) when its
denominator is `0` and is the exact arithmetic quotient otherwise; the
division never raises an error (the modelled semantics is total).  The two
existential conjuncts tie the modelled expressions to the SQL text the
participation builder emits for every argument tuple. -/
theorem claim_C1_amended (x d : ℚ) :
    conversion_rate x d = (if d = 0 then none else some (x / d)) ∧
    pay_rate x d = (if d = 0 then none else some (x / d)) ∧
    ARPU x d = (if d = 0 then none else some (x / d)) ∧
    ARPPU x d = (if d = 0 then none else some (x / d)) ∧
    ARPU 100 4 = some 25 ∧
    (∀ (event platform : String) (tps : List TimePeriod) (lvl : Int),
      ∃ a b, get_event_participation_query event tps platform lvl
        = a ++ ("im.first_time_payers / nullIf(da.group_total_users, 0) AS conversion_rate" ++ b)) ∧
    (∀ (event platform : String) (tps : List TimePeriod) (lvl : Int),
      ∃ a b, get_event_participation_query event tps platform lvl
        = a ++ ("im.total_revenue / nullIf(im.paying_users, 0) AS ARPPU" ++ b)) := by
  refine ⟨?_, ?_, ?_, ?_, by norm_num [ARPU, chDiv, nullIf], ?_, ?_⟩
  · by_cases hd : d = 0 <;> simp [conversion_rate, chDiv, nullIf, hd]
  · by_cases hd : d = 0 <;> simp [pay_rate, chDiv, nullIf, hd]
  · by_cases hd : d = 0 <;> simp [ARPU, chDiv, nullIf, hd]
  · by_cases hd : d = 0 <;> simp [ARPPU, chDiv, nullIf, hd]
  · intro event platform tps lvl
    obtain ⟨w, hw⟩ : ∃ w, get_event_participation_query event tps platform lvl
        = (((w ++ "im.first_time_payers / nullIf(da.group_total_users, 0) AS conversion_rate")
            ++ ",\n        -- Pay rate: paying users divided by THAT GROUP'S total users\n        im.paying_users / nullIf(da.group_total_users, 0) AS pay_rate,\n        -- ARPU: Total Revenue / Total Users in the group\n        im.total_revenue / nullIf(da.group_total_users, 0) AS ARPU,\n        -- ARPPU: Total Revenue / Paying Users\n        ")
            ++ "im.total_revenue / nullIf(im.paying_users, 0) AS ARPPU")
            ++ "\n    FROM\n        iap_metrics im\n    JOIN\n        daily_active_users_by_group da\n        ON im.created_day = da.created_day\n        AND im.participation_group = da.participation_group\n    ORDER BY\n        im.created_day,\n        im.participation_group\n    " := ⟨_, rfl⟩
    refine ⟨w, ",\n        -- Pay rate: paying users divided by THAT GROUP'S total users\n        im.paying_users / nullIf(da.group_total_users, 0) AS pay_rate,\n        -- ARPU: Total Revenue / Total Users in the group\n        im.total_revenue / nullIf(da.group_total_users, 0) AS ARPU,\n        -- ARPPU: Total Revenue / Paying Users\n        "
        ++ ("im.total_revenue / nullIf(im.paying_users, 0) AS ARPPU"
        ++ "\n    FROM\n        iap_metrics im\n    JOIN\n        daily_active_users_by_group da\n        ON im.created_day = da.created_day\n        AND im.participation_group = da.participation_group\n    ORDER BY\n        im.created_day,\n        im.participation_group\n    "), ?_⟩
    rw [hw]
    simp only [strAppend_assoc]
  · intro event platform tps lvl
    obtain ⟨y, hy⟩ : ∃ y, get_event_participation_query event tps platform lvl
        = (y ++ "im.total_revenue / nullIf(im.paying_users, 0) AS ARPPU")
            ++ "\n    FROM\n        iap_metrics im\n    JOIN\n        daily_active_users_by_group da\n        ON im.created_day = da.created_day\n        AND im.participation_group = da.participation_group\n    ORDER BY\n        im.created_day,\n        im.participation_group\n    " := ⟨_, rfl⟩
    exact ⟨y, "\n    FROM\n        iap_metrics im\n    JOIN\n        daily_active_users_by_group da\n        ON im.created_day = da.created_day\n        AND im.participation_group = da.participation_group\n    ORDER BY\n        im.created_day,\n        im.participation_group\n    ", by rw [hy, strAppend_assoc]⟩

/- ## Claim C3: determinism of the query builders -/

/-- Claim C3: the query builders are pure functions of their arguments;
equal argument tuples yield identical query strings. -/
theorem claim_C3 (e₁ e₂ p₁ p₂ : String) (t₁ t₂ : List TimePeriod) (m₁ m₂ : Int)
    (he : e₁ = e₂) (ht : t₁ = t₂) (hp : p₁ = p₂) (hm : m₁ = m₂) :
    get_event_participation_query e₁ t₁ p₁ m₁ = get_event_participation_query e₂ t₂ p₂ m₂ ∧
    get_event_engagement_query e₁ t₁ p₁ m₁ = get_event_engagement_query e₂ t₂ p₂ m₂ := by
  subst he ht hp hm
  exact ⟨rfl, rfl⟩

/-- Witness for claim C3 at one concrete argument tuple. -/
theorem claim_C3_witness :
    get_event_participation_query "spring_event" tpsPair "Android" 5
      = get_event_participation_query "spring_event" tpsPair "Android" 5 ∧
    get_event_engagement_query "spring_event" tpsPair "Android" 5
      = get_event_engagement_query "spring_event" tpsPair "Android" 5 :=
  claim_C3 "spring_event" "spring_event" "Android" "Android" tpsPair tpsPair 5 5
    rfl rfl rfl rfl

/- ## Claims C4-C6: metrics summarizers -/

/-- Claim C4: `calculate_overall_participation_rate` returns the sum of
`group_total_users` over `Event Participant` rows divided by the sum over
all rows, and exactly `0` (it is total, raising nothing) when the frame is
`None`, empty, or the denominator is `0`; the `spec_` function states
exactly that.  The hypothesis records that the user counts are nonnegative
(they are `COUNT(DISTINCT ...)` results). -/
theorem claim_C4 (df : Option (List ParticipationRow))
    (h : ∀ r ∈ df.getD [], 0 ≤ r.group_total_users) :
    calculate_overall_participation_rate df = spec_overall_participation_rate df ∧
    calculate_overall_participation_rate none = 0 ∧
    calculate_overall_participation_rate (some []) = 0 := by
  refine ⟨?_, rfl, rfl⟩
  cases df with
  | none => rfl
  | some rows =>
    cases rows with
    | nil => simp [calculate_overall_participation_rate, spec_overall_participation_rate]
    | cons r rest =>
      simp only [Option.getD_some] at h
      have hnonneg : 0 ≤ r.group_total_users
          + (rest.map (fun r => r.group_total_users)).sum := by
        have h1 : 0 ≤ ((r :: rest).map (fun r => r.group_total_users)).sum := by
          apply List.sum_nonneg
          intro x hx
          simp only [List.mem_map] at hx
          obtain ⟨q, hq, rfl⟩ := hx
          exact h q hq
        simpa using h1
      by_cases ht : r.group_total_users + (rest.map (fun r => r.group_total_users)).sum = 0
      · simp [calculate_overall_participation_rate, spec_overall_participation_rate, ht]
      · have hpos : 0 < r.group_total_users
            + (rest.map (fun r => r.group_total_users)).sum :=
          lt_of_le_of_ne hnonneg (Ne.symm ht)
        simp [calculate_overall_participation_rate, spec_overall_participation_rate,
          ht, hpos]

/-- A concrete participation table used by the C4 witness. -/
def dfParticipation : Option (List ParticipationRow) :=
  some [⟨"2024-01-01", "Event Participant", 3, 100⟩,
        ⟨"2024-01-01", "Non-Participant", 1, 20⟩]

/-- Witness for claim C4 at a concrete two-row table. -/
theorem claim_C4_witness :
    (∀ r ∈ dfParticipation.getD [], 0 ≤ r.group_total_users) ∧
    (calculate_overall_participation_rate dfParticipation
       = spec_overall_participation_rate dfParticipation ∧
     calculate_overall_participation_rate none = 0 ∧
     calculate_overall_participation_rate (some []) = 0) :=
  ⟨by decide, claim_C4 dfParticipation (by decide)⟩

/-- Claim C5: `calculate_overall_revenue` is a pure total function equal to
the spec summarizer: the sum of `total_revenue` over `Event Participant`
rows, `0` on a `None` or empty frame. -/
theorem claim_C5 (df : Option (List ParticipationRow)) :
    calculate_overall_revenue df = spec_overall_revenue df ∧
    calculate_overall_revenue none = 0 ∧
    calculate_overall_revenue (some []) = 0 := by
  refine ⟨?_, rfl, rfl⟩
  cases df with
  | none => rfl
  | some rows =>
    cases rows with
    | nil => simp [calculate_overall_revenue, spec_overall_revenue]
    | cons r rest => simp [calculate_overall_revenue, spec_overall_revenue]

/-- Claim C6: the total-engagement summary equals the sum of
`total_interactions` over all rows, `0` on a `None` or empty frame, and
`50` on the single-row scenario table of the spec. -/
theorem claim_C6 (df : Option (List EngagementRow)) :
    total_engagement df = spec_total_engagement df ∧
    total_engagement none = 0 ∧
    total_engagement (some []) = 0 ∧
    total_engagement (some [⟨"2024-01-01", 10, 50, 5, 10, 5⟩]) = 50 := by
  refine ⟨?_, rfl, rfl, by norm_num [total_engagement, spec_total_engagement]⟩
  cases df with
  | none => rfl
  | some rows =>
    cases rows with
    | nil => simp [total_engagement, spec_total_engagement]
    | cons r rest => simp [total_engagement, spec_total_engagement]

/- ## Claim C7: the query executor -/

/-- Claim C7: `execute_query` maps an empty engine result to an empty frame
(not a failure), and maps every engine error `e` to the failure outcome,
whose displayed message contains the platform and the underlying message,
and which is distinct from every returned frame (in particular from the
empty one). -/
theorem claim_C7 (client_ok client_err : String → Except String (List (List Int)))
    (q p e : String)
    (hok : client_ok q = Except.ok []) (herr : client_err q = Except.error e) :
    execute_query client_ok q p = ExecOutcome.frame [] [] ∧
    execute_query client_err q p
      = ExecOutcome.failure ("Query execution failed for " ++ p ++ ": " ++ e) ∧
    (∃ a b, ("Query execution failed for " ++ p ++ ": " ++ e) = a ++ p ++ b) ∧
    (∃ a, ("Query execution failed for " ++ p ++ ": " ++ e) = a ++ e) ∧
    (∀ (cols : List String) (rows : List (List Int)),
      (ExecOutcome.failure ("Query execution failed for " ++ p ++ ": " ++ e)
        : ExecOutcome Int) ≠ ExecOutcome.frame cols rows) := by
  refine ⟨?_, ?_, ⟨"Query execution failed for ", ": " ++ e, ?_⟩,
    ⟨"Query execution failed for " ++ p ++ ": ", rfl⟩, ?_⟩
  · simp [execute_query, hok]
  · simp [execute_query, herr]
  · simp only [strAppend_assoc]
  · intro cols rows hcontra
    exact ExecOutcome.noConfusion hcontra

/-- Witness for claim C7 with one always-empty and one always-failing
engine. -/
theorem claim_C7_witness :
    ((fun _ : String => (Except.ok [] : Except String (List (List Int)))) "SELECT 1"
       = Except.ok []) ∧
    ((fun _ : String => (Except.error "socket closed" : Except String (List (List Int))))
       "SELECT 1" = Except.error "socket closed") ∧
    (execute_query (fun _ : String => (Except.ok [] : Except String (List (List Int))))
        "SELECT 1" "Android" = ExecOutcome.frame [] [] ∧
     execute_query (fun _ : String =>
          (Except.error "socket closed" : Except String (List (List Int))))
        "SELECT 1" "Android"
       = ExecOutcome.failure
           ("Query execution failed for " ++ "Android" ++ ": " ++ "socket closed") ∧
     (∃ a b, ("Query execution failed for " ++ "Android" ++ ": " ++ "socket closed")
        = a ++ "Android" ++ b) ∧
     (∃ a, ("Query execution failed for " ++ "Android" ++ ": " ++ "socket closed")
        = a ++ "socket closed") ∧
     (∀ (cols : List String) (rows : List (List Int)),
       (ExecOutcome.failure
           ("Query execution failed for " ++ "Android" ++ ": " ++ "socket closed")
         : ExecOutcome Int) ≠ ExecOutcome.frame cols rows)) :=
  ⟨rfl, rfl, claim_C7 _ _ "SELECT 1" "Android" "socket closed" rfl rfl⟩

/- ## Substring extension lemmas -/

theorem startsWithList_extend (pat s b : List Char)
    (h : startsWithList pat s = true) : startsWithList pat (s ++ b) = true := by
  induction pat generalizing s with
  | nil => rfl
  | cons c p ih =>
    cases s with
    | nil => simp [startsWithList] at h
    | cons d s' =>
      simp only [startsWithList, Bool.and_eq_true, decide_eq_true_eq] at h ⊢
      exact ⟨h.1, ih s' h.2⟩

theorem hasSubstr_nil_pat (b : List Char) : hasSubstr [] b = true := by
  cases b <;> rfl

theorem hasSubstr_extend_right (pat a b : List Char)
    (h : hasSubstr pat a = true) : hasSubstr pat (a ++ b) = true := by
  induction a with
  | nil =>
    cases pat with
    | nil => exact hasSubstr_nil_pat b
    | cons c p => simp [hasSubstr, startsWithList] at h
  | cons c rest ih =>
    simp only [hasSubstr, Bool.or_eq_true] at h
    rcases h with h | h
    · have h2 : startsWithList pat ((c :: rest) ++ b) = true :=
        startsWithList_extend pat (c :: rest) b h
      simp only [List.cons_append] at h2 ⊢
      simp [hasSubstr, h2]
    · simp only [List.cons_append]
      simp [hasSubstr, ih h]

theorem hasSubstr_extend_left (pat a b : List Char)
    (h : hasSubstr pat b = true) : hasSubstr pat (a ++ b) = true := by
  induction a with
  | nil => simpa using h
  | cons c rest ih =>
    simp only [List.cons_append]
    simp [hasSubstr, ih]

theorem containsStr_append_right (pat a b : String)
    (h : containsStr pat a = true) : containsStr pat (a ++ b) = true := by
  unfold containsStr at h ⊢
  rw [strData_append]
  exact hasSubstr_extend_right _ _ _ h

theorem containsStr_append_left (pat a b : String)
    (h : containsStr pat b = true) : containsStr pat (a ++ b) = true := by
  unfold containsStr at h ⊢
  rw [strData_append]
  exact hasSubstr_extend_left _ _ _ h

/- ## Claim C8: the single-period Android scenario -/

/-- The eligible-users WHERE-branch the participation builder emits for the
C8 scenario filter. -/
def eligibleBranchC8 : String :=
  "f_sdk_retention_data r\n        WHERE \n            (\n        (created_day BETWEEN toDate('2024-01-01') AND toDate('2024-01-07')\n        AND created_date >= toDateTime('2024-01-01 00:00:00')\n        AND created_date <= toDateTime('2024-01-07 23:59:59'))\n        )\n            AND r.level >= 5"

/-- The event-participants WHERE-branch the participation builder emits for
the C8 scenario filter. -/
def eventBranchC8 : String :=
  "f_sdk_event_data e\n        WHERE \n            (\n        (created_day BETWEEN toDate('2024-01-01') AND toDate('2024-01-07')\n        AND created_date >= toDateTime('2024-01-01 00:00:00')\n        AND created_date <= toDateTime('2024-01-07 23:59:59'))\n        )\n            AND e.event_name = 'spring_event'\n            AND e.level >= 5"

set_option maxRecDepth 8000 in
/-- Claim C8: for the scenario filter (one TimePeriod
`[2024-01-01 00:00:00, 2024-01-07 23:59:59]`, platform Android,
`min_level = 5`, event `spring_event`), the time condition is a single
clause (no `OR`), and the emitted participation query contains the
eligible-users branch and the event-participants branch verbatim, each
holding exactly one time clause and exactly one `level >= 5` test. -/
theorem claim_C8 :
    countSubstr " OR "
      (build_time_periods_condition
        [⟨"2024-01-01 00:00:00", "2024-01-07 23:59:59"⟩]) = 0 ∧
    countSubstr "created_day BETWEEN toDate" eligibleBranchC8 = 1 ∧
    countSubstr "level >= 5" eligibleBranchC8 = 1 ∧
    countSubstr "created_day BETWEEN toDate" eventBranchC8 = 1 ∧
    countSubstr "level >= 5" eventBranchC8 = 1 ∧
    containsStr eligibleBranchC8
      (get_event_participation_query "spring_event"
        [⟨"2024-01-01 00:00:00", "2024-01-07 23:59:59"⟩] "Android" 5) = true ∧
    containsStr eventBranchC8
      (get_event_participation_query "spring_event"
        [⟨"2024-01-01 00:00:00", "2024-01-07 23:59:59"⟩] "Android" 5) = true := by
  refine ⟨by decide, by decide, by decide, by decide, by decide, ?_, ?_⟩
  · iterate 24 apply containsStr_append_right
    simp only [strAppend_assoc]
    iterate 3 apply containsStr_append_left
    decide
  · iterate 13 apply containsStr_append_right
    simp only [strAppend_assoc]
    iterate 12 apply containsStr_append_left
    decide

/- ## Claim C10: the empty time-period list -/

/-- The empty string is right-neutral for string concatenation. -/
theorem strAppend_empty (a : String) : a ++ "" = a := by
  apply String.ext
  simp [strData_append, strData_empty]

/-- Claim C10: on an empty TimePeriod list (violating the spec
precondition) `build_time_periods_condition` raises nothing and returns
`""`, and both query builders still return a query string in which the time
condition appears as the empty parenthesized group `()`. -/
theorem claim_C10 (event platform : String) (min_level : Int) :
    build_time_periods_condition [] = "" ∧
    (∃ a b, get_event_participation_query event [] platform min_level
      = a ++ ("()" ++ b)) ∧
    (∃ a b, get_event_engagement_query event [] platform min_level
      = a ++ ("()" ++ b)) := by
  refine ⟨rfl, ?_, ?_⟩
  · obtain ⟨w, hw⟩ : ∃ w, get_event_participation_query event [] platform min_level
        = (((((((((w
          ++ "(")
          ++ build_time_periods_condition [])
          ++ ")")
          ++ "\n            AND i.level >= ")
          ++ toString min_level)
          ++ " -- Use configurable minimum level\n        GROUP BY\n            i.created_day,\n            up.participation_group\n    )\n\n    -- Final result with ARPU and ARPPU calculations\n    SELECT\n        im.created_day,\n        im.participation_group,\n        da.group_total_users,\n        im.paying_users,\n        im.purchase_count,\n        im.total_revenue,\n        im.revenue_25th_percentile,\n        im.revenue_median,\n        im.revenue_75th_percentile,\n        im.revenue_90th_percentile,\n        im.first_time_payers,\n        -- Conversion rate: first time payers divided by THAT GROUP'S total users\n        ")
          ++ "im.first_time_payers / nullIf(da.group_total_users, 0) AS conversion_rate")
          ++ ",\n        -- Pay rate: paying users divided by THAT GROUP'S total users\n        im.paying_users / nullIf(da.group_total_users, 0) AS pay_rate,\n        -- ARPU: Total Revenue / Total Users in the group\n        im.total_revenue / nullIf(da.group_total_users, 0) AS ARPU,\n        -- ARPPU: Total Revenue / Paying Users\n        ")
          ++ "im.total_revenue / nullIf(im.paying_users, 0) AS ARPPU")
          ++ "\n    FROM\n        iap_metrics im\n    JOIN\n        daily_active_users_by_group da\n        ON im.created_day = da.created_day\n        AND im.participation_group = da.participation_group\n    ORDER BY\n        im.created_day,\n        im.participation_group\n    " := ⟨_, rfl⟩
    refine ⟨w, "\n            AND i.level >= "
        ++ (toString min_level
        ++ (" -- Use configurable minimum level\n        GROUP BY\n            i.created_day,\n            up.participation_group\n    )\n\n    -- Final result with ARPU and ARPPU calculations\n    SELECT\n        im.created_day,\n        im.participation_group,\n        da.group_total_users,\n        im.paying_users,\n        im.purchase_count,\n        im.total_revenue,\n        im.revenue_25th_percentile,\n        im.revenue_median,\n        im.revenue_75th_percentile,\n        im.revenue_90th_percentile,\n        im.first_time_payers,\n        -- Conversion rate: first time payers divided by THAT GROUP'S total users\n        "
        ++ ("im.first_time_payers / nullIf(da.group_total_users, 0) AS conversion_rate"
        ++ (",\n        -- Pay rate: paying users divided by THAT GROUP'S total users\n        im.paying_users / nullIf(da.group_total_users, 0) AS pay_rate,\n        -- ARPU: Total Revenue / Total Users in the group\n        im.total_revenue / nullIf(da.group_total_users, 0) AS ARPU,\n        -- ARPPU: Total Revenue / Paying Users\n        "
        ++ ("im.total_revenue / nullIf(im.paying_users, 0) AS ARPPU"
        ++ "\n    FROM\n        iap_metrics im\n    JOIN\n        daily_active_users_by_group da\n        ON im.created_day = da.created_day\n        AND im.participation_group = da.participation_group\n    ORDER BY\n        im.created_day,\n        im.participation_group\n    "))))), ?_⟩
    rw [hw, show ("()" : String) = "(" ++ ")" from by decide,
      show build_time_periods_condition [] = "" from rfl, strAppend_empty]
    simp only [strAppend_assoc]
  · obtain ⟨w, hw⟩ : ∃ w, get_event_engagement_query event [] platform min_level
        = ((((((w
          ++ "(")
          ++ build_time_periods_condition [])
          ++ ")")
          ++ "\n            AND event_name = '")
          ++ event)
          ++ "'\n            AND level >= ")
          ++ toString min_level
          ++ " -- Use configurable minimum level\n        GROUP BY\n            created_day\n        ORDER BY\n            created_day\n    )\n    \n    SELECT * FROM event_engagement\n    " := ⟨_, rfl⟩
    refine ⟨w, "\n            AND event_name = '"
        ++ (event
        ++ ("'\n            AND level >= "
        ++ (toString min_level
        ++ " -- Use configurable minimum level\n        GROUP BY\n            created_day\n        ORDER BY\n            created_day\n    )\n    \n    SELECT * FROM event_engagement\n    "))), ?_⟩
    rw [hw, show ("()" : String) = "(" ++ ")" from by decide,
      show build_time_periods_condition [] = "" from rfl, strAppend_empty]
    simp only [strAppend_assoc]
